import Mathlib

/-
Verification development for the SynaGen voice-registry / TTS-bridge code.

The Python sources embedded here are:
  - voice_config.py   (class VoiceConfig: JSON-backed voice registry)
  - spark_bridge.py   (class VoiceManager: engine cache; process_tts_request:
                       the synthesis request pipeline; the command-line entry)

Modelling conventions:
  - Python dicts appear as association lists with string keys; insertion
    updates in place (Python dicts keep insertion order and unique keys).
  - The filesystem is a record of existing directories and files; file
    contents are either raw bytes (List Nat) or text.
  - Engine objects (SparkTTS instances) are opaque and expensive; object
    identity is modelled by a creation id drawn from a ghost counter.
  - Exceptions are an explicit error type threaded in Except style; the
    Python except clauses become matches on the error constructor.
  - Traceback text is abstracted as an opaque constant.
-/

def alistGet {β : Type} (m : List (String × β)) (k : String) : Option β :=
  match m with
  | [] => none
  | (k2, v) :: rest => if k2 = k then some v else alistGet rest k

def alistUpsert {β : Type} (m : List (String × β)) (k : String) (v : β) :
    List (String × β) :=
  match m with
  | [] => [(k, v)]
  | (k2, v2) :: rest =>
    if k2 = k then (k2, v) :: rest else (k2, v2) :: alistUpsert rest k v

def alistErase {β : Type} (m : List (String × β)) (k : String) :
    List (String × β) :=
  match m with
  | [] => []
  | (k2, v2) :: rest => if k2 = k then rest else (k2, v2) :: alistErase rest k

/-- File contents: raw bytes (audio artifacts) or text (the error log). -/
inductive FileData where
  | bytes : List Nat → FileData
  | text : String → FileData
deriving DecidableEq, Repr

/-- The filesystem visible to the bridge: existing directories and files. -/
structure FS where
  dirs : List String
  files : List (String × FileData)
deriving DecidableEq, Repr

/-- Path.exists(): true when the path names an existing directory or file. -/
def FS.pathExists (fs : FS) (p : String) : Bool :=
  fs.dirs.contains p || (alistGet fs.files p).isSome

/-- open(p, w) / sf.write: create or overwrite the file at p. -/
def FS.writeFile (fs : FS) (p : String) (d : FileData) : FS :=
  { fs with files := alistUpsert fs.files p d }

/-- Split a character list at every slash (the behavior of splitting a
path string on "/", written with structural recursion). -/
def splitPathChars : List Char → List (List Char)
  | [] => [[]]
  | c :: rest =>
    match splitPathChars rest with
    | [] => [[]]
    | p :: ps => if c = '/' then [] :: p :: ps else (c :: p) :: ps

/-- The slash-separated components of a path. -/
def pathParts (p : String) : List String :=
  (splitPathChars p.data).map (fun cs => String.mk cs)

/-- Rejoin path components with slashes. -/
def joinPath (parts : List String) : String := String.intercalate "/" parts

/-- Path(p).parent, for the relative paths the bridge handles. -/
def parentPath (p : String) : String :=
  let parts := pathParts p
  if parts.length ≤ 1 then "." else joinPath parts.dropLast

/-- The proper ancestors of a directory path, shortest first. -/
def ancestorDirs (d : String) : List String :=
  let parts := (pathParts d).dropLast
  (List.range parts.length).map (fun i => joinPath (parts.take (i + 1)))

/-- Path(d).mkdir(parents=True, exist_ok=True): d and its ancestors exist. -/
def FS.mkdirParents (fs : FS) (d : String) : FS :=
  { fs with dirs := d :: ancestorDirs d ++ fs.dirs }

/-- One registry entry: the two attributes stored per voice id. -/
structure VoiceRecord where
  model_dir : String
  display_name : String
deriving DecidableEq, Repr

/-- The JSON fragment shapes the registry document uses. -/
inductive JValue where
  | str : String → JValue
  | obj : List (String × JValue) → JValue

/-- json.dump of one voice record (field order as written by add_voice). -/
def encodeVoice (v : VoiceRecord) : JValue :=
  .obj [("model_dir", .str v.model_dir), ("display_name", .str v.display_name)]

/-- json.dump of the whole registry mapping. -/
def encodeReg (m : List (String × VoiceRecord)) : JValue :=
  .obj (m.map (fun kv => (kv.1, encodeVoice kv.2)))

/-- json.load of one voice record. -/
def decodeVoice : JValue → Option VoiceRecord
  | .obj [("model_dir", .str d), ("display_name", .str n)] => some ⟨d, n⟩
  | _ => none

/-- json.load of the entry list of the registry document. -/
def decodeEntries : List (String × JValue) → Option (List (String × VoiceRecord))
  | [] => some []
  | (k, j) :: rest =>
    match decodeVoice j, decodeEntries rest with
    | some v, some m => some ((k, v) :: m)
    | _, _ => none

/-- json.load of the whole registry document. -/
def decodeReg : JValue → Option (List (String × VoiceRecord))
  | .obj entries => decodeEntries entries
  | _ => none

/-- The persisted registry document and a ghost count of rewrites. -/
structure RegistryDisk where
  doc : Option JValue
  writes : Nat

/-- In-memory state of a VoiceConfig instance (its voices dict). -/
structure VoiceConfigState where
  voices : List (String × VoiceRecord)
deriving DecidableEq, Repr

/-- VoiceConfig._load_config: absent file is an empty registry; a present
document is parsed (none models a json.load failure, which would raise). -/
def loadConfig (disk : RegistryDisk) : Option (List (String × VoiceRecord)) :=
  match disk.doc with
  | none => some []
  | some j => decodeReg j

/-- VoiceConfig.__init__ on an existing disk state: a fresh instance. -/
def newVoiceConfig (disk : RegistryDisk) : Option VoiceConfigState :=
  match loadConfig disk with
  | some m => some ⟨m⟩
  | none => none

/-- VoiceConfig._save_config: full rewrite of the document. -/
def saveConfig (c : VoiceConfigState) (disk : RegistryDisk) : RegistryDisk :=
  { doc := some (encodeReg c.voices), writes := disk.writes + 1 }

/-- VoiceConfig.add_voice: upsert the entry, then persist. -/
def VoiceConfigState.add_voice (c : VoiceConfigState) (disk : RegistryDisk)
    (voice_id model_dir display_name : String) :
    VoiceConfigState × RegistryDisk :=
  let c2 : VoiceConfigState :=
    ⟨alistUpsert c.voices voice_id ⟨model_dir, display_name⟩⟩
  (c2, saveConfig c2 disk)

/-- VoiceConfig.remove_voice: delete if present (persisting), report whether
a deletion happened; absent ids leave both states untouched. -/
def VoiceConfigState.remove_voice (c : VoiceConfigState) (disk : RegistryDisk)
    (voice_id : String) : Bool × VoiceConfigState × RegistryDisk :=
  if (alistGet c.voices voice_id).isSome then
    let c2 : VoiceConfigState := ⟨alistErase c.voices voice_id⟩
    (true, c2, saveConfig c2 disk)
  else
    (false, c, disk)

/-- VoiceConfig.get_voice: pure lookup. -/
def VoiceConfigState.get_voice (c : VoiceConfigState) (voice_id : String) :
    Option VoiceRecord :=
  alistGet c.voices voice_id

/-- An opaque SparkTTS engine; engineId models Python object identity
(each construction yields a fresh id from the ghost counter). -/
structure SparkEngine where
  engineId : Nat
  model_dir : String
deriving DecidableEq, Repr

/-- The ambient world of a bridge call: the filesystem, the set of model
directories whose SparkTTS construction raises (with the raised message),
and the samples the opaque inference call returns. -/
structure World where
  fs : FS
  badModels : List (String × String)
  wav : List Nat
deriving DecidableEq, Repr

/-- The Python exceptions the bridge raises or handles. -/
inductive PyError where
  | importError : String → PyError
  | fileNotFoundError : String → PyError
  | runtimeError : String → PyError
  | sparkError : String → PyError
  | valueError : String → PyError
deriving DecidableEq, Repr

/-- str(e) for a raised exception. -/
def PyError.msg : PyError → String
  | .importError m => m
  | .fileNotFoundError m => m
  | .runtimeError m => m
  | .sparkError m => m
  | .valueError m => m

/-- SparkTTS(model_dir, device): fresh engine, or the raised message when
the world marks the directory as failing construction. -/
def sparkTTSNew (w : World) (fresh : Nat) (dir : String) :
    Except String SparkEngine :=
  match alistGet w.badModels dir with
  | some msg => .error msg
  | none => .ok ⟨fresh, dir⟩

/-- State of the (global) VoiceManager instance. nextId and calls are ghost
fields: nextId supplies fresh engine identities, calls counts get_tts
invocations so that never-invoked claims can be stated. -/
structure VoiceManager where
  tts_models : List (String × SparkEngine)
  nextId : Nat
  calls : Nat
  voice_config : VoiceConfigState
deriving DecidableEq, Repr

/-- The fixed built-in model location used for the default engine.
The source takes Path("pretrained_models/Spark-TTS-0.5B").absolute();
absolutisation is left out of the path model. -/
def defaultModelDir : String := "pretrained_models/Spark-TTS-0.5B"

/-- The default branch of VoiceManager.get_tts: serve the cached default
engine, or construct it from the fixed built-in model location (raising
FileNotFoundError when that location is absent; a construction failure
propagates unwrapped). -/
def defaultBranch (vm1 : VoiceManager) (w : World) :
    Except PyError SparkEngine × VoiceManager :=
  match alistGet vm1.tts_models "default" with
  | some e => (.ok e, vm1)
  | none =>
    if w.fs.pathExists defaultModelDir = false then
      (.error (.fileNotFoundError
        ("Default model directory not found: " ++ defaultModelDir ++
         ". Please run download_model.py first.")), vm1)
    else
      match sparkTTSNew w vm1.nextId defaultModelDir with
      | .error m => (.error (.sparkError m), vm1)
      | .ok e =>
        (.ok e, { vm1 with tts_models := alistUpsert vm1.tts_models "default" e,
                           nextId := vm1.nextId + 1 })

/-- VoiceManager.get_tts: resolve a voice id to an engine. Absent or
unregistered ids route to the cached-or-constructed default engine;
registered ids are served from cache or constructed after checking that
the model directory exists (a construction failure is re-raised as
RuntimeError). Errors leave the cache as it was. -/
def VoiceManager.get_tts (vm : VoiceManager) (w : World)
    (voice_id : Option String) : Except PyError SparkEngine × VoiceManager :=
  let vm1 := { vm with calls := vm.calls + 1 }
  match voice_id with
  | none => defaultBranch vm1 w
  | some vid =>
    match vm1.voice_config.get_voice vid with
    | none => defaultBranch vm1 w
    | some voice =>
      match alistGet vm1.tts_models vid with
      | some e => (.ok e, vm1)
      | none =>
        let dir := voice.model_dir
        if w.fs.pathExists dir = false then
          (.error (.fileNotFoundError
            ("Model directory for voice \x27" ++ vid ++ "\x27 not found: " ++ dir)),
           vm1)
        else
          match sparkTTSNew w vm1.nextId dir with
          | .error m =>
            (.error (.runtimeError
              ("Failed to load model for voice \x27" ++ vid ++ "\x27: " ++ m)),
             vm1)
          | .ok e =>
            (.ok e, { vm1 with tts_models := alistUpsert vm1.tts_models vid e,
                               nextId := vm1.nextId + 1 })

/-- The structured result dict of the bridge; absent keys appear as none. -/
structure TTSResult where
  success : Bool
  message : String
  file : Option String
  voice : Option (String × String) := none
  trace : Option String := none
  log_file : Option String := none
deriving DecidableEq, Repr

/-- Process-scope state of spark_bridge: whether the Spark-TTS import
succeeded, and the global voice_manager. -/
structure BridgeState where
  sparkAvailable : Bool
  vm : VoiceManager
deriving DecidableEq, Repr

/-- traceback.format_exc(), abstracted as an opaque constant. -/
def tracebackText : String := "Traceback (most recent call last):"

/-- The trace truncation applied in the failure handlers. -/
def truncatedTrace (t : String) : String :=
  if t.length > 200 then t.take 200 ++ "..." else t

/-- The fixed diagnostic log path. -/
def errorLogPath : String := "tts_error.log"

/-- The 44 bytes of the empty WAV placeholder written by the
integration-unavailable fallback. -/
def emptyWavBytes : List Nat :=
  [82, 73, 70, 70, 36, 0, 0, 0, 87, 65, 86, 69, 102, 109, 116, 32,
   16, 0, 0, 0, 1, 0, 1, 0, 0, 4, 0, 0, 0, 4, 0, 0, 1, 0, 8, 0,
   100, 97, 116, 97, 0, 0, 0, 0]

/-- f-string rendering of an optional value (None prints as None). -/
def optionText : Option String → String
  | none => "None"
  | some s => s

/-- The text written to the diagnostic log by the failure handlers. -/
def errorLogText (text : String) (voice_id custom_voice_path : Option String)
    (output_path : String) (exc : String) : String :=
  "Error processing text: " ++ text ++ "\n" ++
  "Voice ID: " ++ optionText voice_id ++ "\n" ++
  "Custom voice path: " ++ optionText custom_voice_path ++ "\n" ++
  "Output path: " ++ output_path ++ "\n" ++
  "Exception: " ++ exc ++ "\n" ++
  "Traceback:\n" ++ tracebackText

/-- The synthesize-persist-report tail of the try block: the opaque
inference call (samples supplied by the world), sf.write at 16 kHz, the
post-write existence check, and the success dict with its voice info. -/
def finishSynthesis (vm : VoiceManager) (w : World) (voice_id : Option String)
    (output_path : String) : Except PyError TTSResult × VoiceManager × World :=
  let w2 := { w with fs := w.fs.writeFile output_path (.bytes w.wav) }
  if w2.fs.pathExists output_path = false then
    (.error (.fileNotFoundError ("Output file was not created: " ++ output_path)),
     vm, w2)
  else
    let voiceInfo : Option (String × String) :=
      match voice_id with
      | none => none
      | some vid =>
        if vid = "" then none
        else
          match vm.voice_config.get_voice vid with
          | none => none
          | some cfg => some (vid, cfg.display_name)
    (.ok { success := true, file := some output_path,
           message := "Audio generated successfully using CPU",
           voice := voiceInfo }, vm, w2)

/-- The body of the try block of process_tts_request: the availability
check, engine resolution, the custom-voice existence check, then
synthesis. Errors carry the VoiceManager as mutated so far. -/
def ttsCore (st : BridgeState) (w : World) (voice_id custom_voice_path : Option String)
    (output_path : String) : Except PyError TTSResult × VoiceManager × World :=
  if st.sparkAvailable = false then
    (.error (.importError "Spark-TTS modules not available"), st.vm, w)
  else
    match st.vm.get_tts w voice_id with
    | (.error e, vm2) => (.error e, vm2, w)
    | (.ok _eng, vm2) =>
      match custom_voice_path with
      | some cvp =>
        if w.fs.pathExists cvp = false then
          (.error (.fileNotFoundError ("Voice file not found: " ++ cvp)), vm2, w)
        else
          finishSynthesis vm2 w voice_id output_path
      | none => finishSynthesis vm2 w voice_id output_path

/-- process_tts_request: create the output directory, run the try block,
and map each raised exception to its handler: ImportError writes the empty
WAV placeholder and keeps file populated; FileNotFoundError and the
catch-all write the diagnostic log and return file as null. -/
def process_tts_request (st : BridgeState) (w : World) (text : String)
    (voice_id custom_voice_path : Option String) (output_path : String) :
    TTSResult × BridgeState × World :=
  match ttsCore st { w with fs := w.fs.mkdirParents (parentPath output_path) }
      voice_id custom_voice_path output_path with
  | (.ok r, vm2, w2) => (r, { st with vm := vm2 }, w2)
  | (.error e, vm2, w2) =>
    match e with
    | .importError m =>
      let w3 := { w2 with fs := w2.fs.writeFile output_path (.bytes emptyWavBytes) }
      ({ success := false,
         message := "Spark-TTS is not properly installed: " ++ m ++
                    ". Created an empty audio file as fallback.",
         file := some output_path }, { st with vm := vm2 }, w3)
    | .fileNotFoundError m =>
      let logData : FileData :=
        .text (errorLogText text voice_id custom_voice_path output_path m)
      let w3 := { w2 with fs := w2.fs.writeFile errorLogPath logData }
      ({ success := false, message := "File not found: " ++ m, file := none,
         trace := some (truncatedTrace tracebackText),
         log_file := some errorLogPath }, { st with vm := vm2 }, w3)
    | other =>
      let m := other.msg
      let logData : FileData :=
        .text (errorLogText text voice_id custom_voice_path output_path m)
      let w3 := { w2 with fs := w2.fs.writeFile errorLogPath logData }
      ({ success := false, message := "Error generating audio: " ++ m, file := none,
         trace := some (truncatedTrace tracebackText),
         log_file := some errorLogPath }, { st with vm := vm2 }, w3)

/-- The tts branch of the command-line entry: an absent or empty --text
raises ValueError, caught by the outer handler into a structured failure,
before process_tts_request runs. -/
def mainTTS (st : BridgeState) (w : World) (textArg : Option String)
    (voice_id custom_voice : Option String) (output : String) :
    TTSResult × BridgeState × World :=
  match textArg with
  | none =>
    ({ success := false,
       message := "Unexpected error: --text argument is required for TTS action",
       file := none, trace := some tracebackText }, st, w)
  | some t =>
    if t = "" then
      ({ success := false,
         message := "Unexpected error: --text argument is required for TTS action",
         file := none, trace := some tracebackText }, st, w)
    else
      process_tts_request st w t voice_id custom_voice output

/-- The in-process operations that touch the VoiceManager or registry,
for stating cache-lifetime invariants over operation sequences. getTTS
carries the world its call observes. -/
inductive VMOp where
  | getTTS : World → Option String → VMOp
  | addVoice : String → String → String → VMOp
  | removeVoice : String → VMOp

/-- One operation applied to the manager and the registry disk. -/
def VMOp.apply (op : VMOp) (vm : VoiceManager) (disk : RegistryDisk) :
    VoiceManager × RegistryDisk :=
  match op with
  | .getTTS w vid => ((vm.get_tts w vid).2, disk)
  | .addVoice vid dir name =>
    let p := vm.voice_config.add_voice disk vid dir name
    ({ vm with voice_config := p.1 }, p.2)
  | .removeVoice vid =>
    let p := vm.voice_config.remove_voice disk vid
    ({ vm with voice_config := p.2.1 }, p.2.2)

/-- A sequence of operations, run left to right. -/
def runOps (vm : VoiceManager) (disk : RegistryDisk) :
    List VMOp → VoiceManager × RegistryDisk
  | [] => (vm, disk)
  | op :: rest =>
    let p := op.apply vm disk
    runOps p.1 p.2 rest

theorem alistGet_upsert_self {β : Type} (m : List (String × β)) (k : String)
    (v : β) : alistGet (alistUpsert m k v) k = some v := by
  induction m with
  | nil => simp [alistUpsert, alistGet]
  | cons kv rest ih =>
    obtain ⟨k2, v2⟩ := kv
    by_cases h : k2 = k <;> simp [alistUpsert, alistGet, h, ih]

theorem alistGet_upsert_ne {β : Type} (m : List (String × β)) (k kq : String)
    (v : β) (h : k ≠ kq) : alistGet (alistUpsert m k v) kq = alistGet m kq := by
  induction m with
  | nil => simp [alistUpsert, alistGet, h]
  | cons kv rest ih =>
    obtain ⟨k2, v2⟩ := kv
    by_cases h2 : k2 = k
    · subst h2; simp [alistUpsert, alistGet, h]
    · simp [alistUpsert, alistGet, h2, ih]

theorem alistGet_none_of_not_mem {β : Type} (m : List (String × β)) (k : String)
    (h : k ∉ m.map Prod.fst) : alistGet m k = none := by
  induction m with
  | nil => rfl
  | cons kv rest ih =>
    obtain ⟨k2, v2⟩ := kv
    simp only [List.map_cons, List.mem_cons] at h
    push_neg at h
    have hne : ¬ k2 = k := fun e => h.1 e.symm
    simp [alistGet, hne, ih h.2]

theorem alistGet_erase_self {β : Type} (m : List (String × β)) (k : String)
    (h : (m.map Prod.fst).Nodup) : alistGet (alistErase m k) k = none := by
  induction m with
  | nil => rfl
  | cons kv rest ih =>
    obtain ⟨k2, v2⟩ := kv
    simp only [List.map_cons, List.nodup_cons] at h
    by_cases hk : k2 = k
    · subst hk
      simpa [alistErase] using alistGet_none_of_not_mem rest k2 h.1
    · simp [alistErase, alistGet, hk, ih h.2]

theorem alistGet_erase_ne {β : Type} (m : List (String × β)) (k kq : String)
    (h : k ≠ kq) : alistGet (alistErase m k) kq = alistGet m kq := by
  induction m with
  | nil => rfl
  | cons kv rest ih =>
    obtain ⟨k2, v2⟩ := kv
    by_cases h2 : k2 = k
    · subst h2; simp [alistErase, alistGet, h]
    · simp [alistErase, alistGet, h2, ih]

theorem alistGet_mem {β : Type} (m : List (String × β)) (k : String) (v : β)
    (h : alistGet m k = some v) : (k, v) ∈ m := by
  induction m with
  | nil => simp [alistGet] at h
  | cons kv rest ih =>
    obtain ⟨k2, v2⟩ := kv
    simp only [alistGet] at h
    split at h
    · rename_i heq
      injection h with hv
      subst heq
      subst hv
      exact List.mem_cons_self _ _
    · exact List.mem_cons_of_mem _ (ih h)

theorem decodeVoice_encodeVoice (v : VoiceRecord) :
    decodeVoice (encodeVoice v) = some v := rfl

theorem decodeReg_encodeReg (m : List (String × VoiceRecord)) :
    decodeReg (encodeReg m) = some m := by
  induction m with
  | nil => rfl
  | cons kv rest ih =>
    obtain ⟨k, v⟩ := kv
    simp only [encodeReg, List.map_cons, decodeReg, decodeEntries,
      decodeVoice_encodeVoice]
    have ih2 : decodeEntries (rest.map (fun kv => (kv.1, encodeVoice kv.2))) =
        some rest := ih
    simp [ih2]

/-- C7: add_or_update followed by get returns exactly the written record,
and a fresh VoiceConfig instance loaded from the document persisted by the
writing instance holds the identical voices mapping. -/
theorem registry_round_trip (c : VoiceConfigState) (disk : RegistryDisk)
    (vid dir name : String) :
    (c.add_voice disk vid dir name).1.get_voice vid =
      some { model_dir := dir, display_name := name } ∧
    newVoiceConfig (c.add_voice disk vid dir name).2 =
      some (c.add_voice disk vid dir name).1 := by
  constructor
  · simp [VoiceConfigState.add_voice, VoiceConfigState.get_voice,
      alistGet_upsert_self]
  · simp [VoiceConfigState.add_voice, newVoiceConfig, loadConfig, saveConfig,
      decodeReg_encodeReg]

/-- C8: remove_voice on a present id returns true and makes the id absent;
remove_voice on an absent id returns false and leaves both the in-memory
mapping and the persisted document (including its rewrite count) unchanged. -/
theorem remove_voice_spec (c : VoiceConfigState) (disk : RegistryDisk)
    (vid : String) (hnd : (c.voices.map Prod.fst).Nodup) :
    ((alistGet c.voices vid).isSome = true →
      (c.remove_voice disk vid).1 = true ∧
      (c.remove_voice disk vid).2.1.get_voice vid = none) ∧
    ((alistGet c.voices vid).isSome = false →
      (c.remove_voice disk vid).1 = false ∧
      (c.remove_voice disk vid).2.1 = c ∧
      (c.remove_voice disk vid).2.2 = disk) := by
  constructor
  · intro h
    refine ⟨?_, ?_⟩
    · simp [VoiceConfigState.remove_voice, h]
    · simp only [VoiceConfigState.remove_voice, if_pos h]
      show alistGet (alistErase c.voices vid) vid = none
      exact alistGet_erase_self c.voices vid hnd
  · intro h
    simp only [VoiceConfigState.remove_voice, h]
    simp

/-- Witness for C8 at a concrete registry: both the present-id and the
absent-id behaviors, instantiated. -/
theorem remove_voice_spec_wit :
    (VoiceConfigState.remove_voice ⟨[("a", ⟨"d", "n"⟩)]⟩ ⟨none, 0⟩ "a").1 = true ∧
    (VoiceConfigState.remove_voice ⟨[("a", ⟨"d", "n"⟩)]⟩ ⟨none, 0⟩ "a").2.1.get_voice "a"
      = none :=
  (remove_voice_spec ⟨[("a", ⟨"d", "n"⟩)]⟩ ⟨none, 0⟩ "a" (by simp)).1 (by decide)

/-- A voice id that routes to the fallback: absent, or not in the registry. -/
def unregistered (vm : VoiceManager) (vid : Option String) : Prop :=
  vid = none ∨ ∃ s, vid = some s ∧ vm.voice_config.get_voice s = none

/-- C2: when voice_id is absent or unregistered and the default engine is
not yet cached, get_tts constructs the default engine from the fixed
built-in model location, stores it under the key default, and returns it;
any subsequent absent-or-unregistered call (in any world) returns the same
cached instance and constructs nothing new (the ghost id counter and the
cache are unchanged). -/
theorem resolve_fallback_default (vm : VoiceManager) (w w2 : World)
    (vid1 vid2 : Option String)
    (h1 : unregistered vm vid1) (h2 : unregistered vm vid2)
    (hc : alistGet vm.tts_models "default" = none)
    (hd : w.fs.pathExists defaultModelDir = true)
    (hb : alistGet w.badModels defaultModelDir = none) :
    ∃ e : SparkEngine,
      (vm.get_tts w vid1).1 = .ok e ∧
      e.model_dir = defaultModelDir ∧
      alistGet (vm.get_tts w vid1).2.tts_models "default" = some e ∧
      (vm.get_tts w vid1).2.nextId = vm.nextId + 1 ∧
      ((vm.get_tts w vid1).2.get_tts w2 vid2).1 = .ok e ∧
      ((vm.get_tts w vid1).2.get_tts w2 vid2).2.tts_models =
        (vm.get_tts w vid1).2.tts_models ∧
      ((vm.get_tts w vid1).2.get_tts w2 vid2).2.nextId =
        (vm.get_tts w vid1).2.nextId := by
  refine ⟨⟨vm.nextId, defaultModelDir⟩, ?_⟩
  have hfirst : vm.get_tts w vid1 =
      (.ok ⟨vm.nextId, defaultModelDir⟩,
       { vm with calls := vm.calls + 1,
                 tts_models :=
                   alistUpsert vm.tts_models "default" ⟨vm.nextId, defaultModelDir⟩,
                 nextId := vm.nextId + 1 }) := by
    rcases h1 with rfl | ⟨s, rfl, hs⟩
    · simp [VoiceManager.get_tts, defaultBranch, hc, hd, sparkTTSNew, hb]
    · simp [VoiceManager.get_tts, defaultBranch, hs, hc, hd, sparkTTSNew, hb]
  rw [hfirst]
  have hcache : alistGet (alistUpsert vm.tts_models "default"
      (⟨vm.nextId, defaultModelDir⟩ : SparkEngine)) "default" =
      some ⟨vm.nextId, defaultModelDir⟩ := alistGet_upsert_self _ _ _
  refine ⟨rfl, rfl, hcache, rfl, ?_, ?_, ?_⟩ <;>
  · rcases h2 with rfl | ⟨s, rfl, hs⟩
    · simp [VoiceManager.get_tts, defaultBranch, hcache]
    · simp [VoiceManager.get_tts, defaultBranch, VoiceConfigState.get_voice] at hs ⊢
      simp [hs, hcache]

/-- A VoiceManager with empty cache and empty registry, for witnesses. -/
def vmEmpty : VoiceManager := ⟨[], 0, 0, ⟨[]⟩⟩

/-- A world where only the built-in model directory exists, for witnesses. -/
def wDefault : World := ⟨⟨[defaultModelDir], []⟩, [], []⟩

/-- Witness for C2: empty cache and registry, the built-in model directory
present; resolve(None) then resolve("ghost"). -/
theorem resolve_fallback_default_wit :
    ∃ e : SparkEngine,
      (vmEmpty.get_tts wDefault none).1 = .ok e ∧
      e.model_dir = defaultModelDir ∧
      alistGet (vmEmpty.get_tts wDefault none).2.tts_models "default" = some e ∧
      (vmEmpty.get_tts wDefault none).2.nextId = vmEmpty.nextId + 1 ∧
      ((vmEmpty.get_tts wDefault none).2.get_tts wDefault (some "ghost")).1
        = .ok e ∧
      ((vmEmpty.get_tts wDefault none).2.get_tts wDefault (some "ghost")).2.tts_models
        = (vmEmpty.get_tts wDefault none).2.tts_models ∧
      ((vmEmpty.get_tts wDefault none).2.get_tts wDefault (some "ghost")).2.nextId
        = (vmEmpty.get_tts wDefault none).2.nextId :=
  resolve_fallback_default vmEmpty wDefault wDefault
    none (some "ghost") (Or.inl rfl) (Or.inr ⟨"ghost", rfl, rfl⟩)
    rfl (by decide) rfl

/-- C3: a registered voice whose model directory exists but whose engine
construction raises yields a RuntimeError from get_tts, the cache mapping
is unchanged and the id stays uncached, and a subsequent call in a world
where construction succeeds re-attempts and performs the construction. -/
theorem engine_load_failure_uncached (vm : VoiceManager) (w w2 : World)
    (vid : String) (voice : VoiceRecord) (msg : String)
    (hreg : vm.voice_config.get_voice vid = some voice)
    (hnc : alistGet vm.tts_models vid = none)
    (hex : w.fs.pathExists voice.model_dir = true)
    (hbad : alistGet w.badModels voice.model_dir = some msg)
    (hex2 : w2.fs.pathExists voice.model_dir = true)
    (hok2 : alistGet w2.badModels voice.model_dir = none) :
    (vm.get_tts w (some vid)).1 = .error (.runtimeError
      ("Failed to load model for voice \x27" ++ vid ++ "\x27: " ++ msg)) ∧
    (vm.get_tts w (some vid)).2.tts_models = vm.tts_models ∧
    alistGet (vm.get_tts w (some vid)).2.tts_models vid = none ∧
    ((vm.get_tts w (some vid)).2.get_tts w2 (some vid)).1 =
      .ok ⟨vm.nextId, voice.model_dir⟩ ∧
    ((vm.get_tts w (some vid)).2.get_tts w2 (some vid)).2.nextId =
      vm.nextId + 1 := by
  have hfirst : vm.get_tts w (some vid) =
      (.error (.runtimeError
        ("Failed to load model for voice \x27" ++ vid ++ "\x27: " ++ msg)),
       { vm with calls := vm.calls + 1 }) := by
    simp [VoiceManager.get_tts, hreg, hnc, hex, sparkTTSNew, hbad]
  rw [hfirst]
  refine ⟨rfl, rfl, hnc, ?_, ?_⟩ <;>
    simp [VoiceManager.get_tts, hreg, hnc, hex2, sparkTTSNew, hok2]

/-- Witness for C3: a registered voice v1 with an existing model directory
that fails construction in the first world and succeeds in the second. -/
theorem engine_load_failure_uncached_wit :
    ((⟨[], 5, 0, ⟨[("v1", ⟨"models/v1", "V"⟩)]⟩⟩ : VoiceManager).get_tts
      ⟨⟨["models/v1"], []⟩, [("models/v1", "boom")], []⟩ (some "v1")).1 =
      .error (.runtimeError
        ("Failed to load model for voice \x27" ++ "v1" ++ "\x27: " ++ "boom")) ∧
    ((⟨[], 5, 0, ⟨[("v1", ⟨"models/v1", "V"⟩)]⟩⟩ : VoiceManager).get_tts
      ⟨⟨["models/v1"], []⟩, [("models/v1", "boom")], []⟩ (some "v1")).2.tts_models
      = [] ∧
    alistGet (((⟨[], 5, 0, ⟨[("v1", ⟨"models/v1", "V"⟩)]⟩⟩ : VoiceManager).get_tts
      ⟨⟨["models/v1"], []⟩, [("models/v1", "boom")], []⟩ (some "v1")).2.tts_models)
      "v1" = none ∧
    (((⟨[], 5, 0, ⟨[("v1", ⟨"models/v1", "V"⟩)]⟩⟩ : VoiceManager).get_tts
      ⟨⟨["models/v1"], []⟩, [("models/v1", "boom")], []⟩ (some "v1")).2.get_tts
      ⟨⟨["models/v1"], []⟩, [], []⟩ (some "v1")).1 = .ok ⟨5, "models/v1"⟩ ∧
    (((⟨[], 5, 0, ⟨[("v1", ⟨"models/v1", "V"⟩)]⟩⟩ : VoiceManager).get_tts
      ⟨⟨["models/v1"], []⟩, [("models/v1", "boom")], []⟩ (some "v1")).2.get_tts
      ⟨⟨["models/v1"], []⟩, [], []⟩ (some "v1")).2.nextId = 5 + 1 :=
  engine_load_failure_uncached ⟨[], 5, 0, ⟨[("v1", ⟨"models/v1", "V"⟩)]⟩⟩
    ⟨⟨["models/v1"], []⟩, [("models/v1", "boom")], []⟩
    ⟨⟨["models/v1"], []⟩, [], []⟩ "v1" ⟨"models/v1", "V"⟩ "boom"
    rfl rfl (by decide) rfl (by decide) rfl

theorem alistGet_upsert_keep {β : Type} (m : List (String × β)) (k0 k : String)
    (v : β) (e : β) (hk : alistGet m k = some e) (h0 : alistGet m k0 = none) :
    alistGet (alistUpsert m k0 v) k = some e := by
  have hne : k0 ≠ k := by
    intro h
    rw [h, hk] at h0
    cases h0
  rw [alistGet_upsert_ne m k0 k v hne]
  exact hk

theorem defaultBranch_preserves_cache (vm1 : VoiceManager) (w : World)
    (k : String) (e : SparkEngine) (h : alistGet vm1.tts_models k = some e) :
    alistGet (defaultBranch vm1 w).2.tts_models k = some e := by
  cases heq : alistGet vm1.tts_models "default" with
  | some e2 => simp [defaultBranch, heq, h]
  | none =>
    cases hpe : w.fs.pathExists defaultModelDir with
    | false => simp [defaultBranch, heq, hpe, h]
    | true =>
      cases hb : alistGet w.badModels defaultModelDir with
      | some m => simp [defaultBranch, heq, hpe, sparkTTSNew, hb, h]
      | none =>
        simp [defaultBranch, heq, hpe, sparkTTSNew, hb,
              alistGet_upsert_keep _ _ _ _ _ h heq]

theorem get_tts_preserves_cache (vm : VoiceManager) (w : World)
    (vid : Option String) (k : String) (e : SparkEngine)
    (h : alistGet vm.tts_models k = some e) :
    alistGet (vm.get_tts w vid).2.tts_models k = some e := by
  cases vid with
  | none =>
    show alistGet (defaultBranch { vm with calls := vm.calls + 1 } w).2.tts_models
      k = some e
    exact defaultBranch_preserves_cache _ w k e h
  | some s =>
    cases hr : vm.voice_config.get_voice s with
    | none =>
      have hred : vm.get_tts w (some s) =
          defaultBranch { vm with calls := vm.calls + 1 } w := by
        simp [VoiceManager.get_tts, hr]
      rw [hred]
      exact defaultBranch_preserves_cache _ w k e h
    | some voice =>
      cases hcached : alistGet vm.tts_models s with
      | some e2 => simp [VoiceManager.get_tts, hr, hcached, h]
      | none =>
        cases hpe : w.fs.pathExists voice.model_dir with
        | false => simp [VoiceManager.get_tts, hr, hcached, hpe, h]
        | true =>
          cases hb : alistGet w.badModels voice.model_dir with
          | some m =>
            simp [VoiceManager.get_tts, hr, hcached, hpe, sparkTTSNew, hb, h]
          | none =>
            simp [VoiceManager.get_tts, hr, hcached, hpe, sparkTTSNew, hb,
                  alistGet_upsert_keep _ _ _ _ _ h hcached]

/-- C5: over any sequence of in-process operations (engine resolutions,
registry additions and removals), an engine stored in the cache under a
key is still stored there, unchanged, afterwards: entries are never
evicted or replaced, whatever happens to the registry. -/
theorem cache_entry_never_replaced (ops : List VMOp) (vm : VoiceManager)
    (disk : RegistryDisk) (k : String) (e : SparkEngine)
    (h : alistGet vm.tts_models k = some e) :
    alistGet (runOps vm disk ops).1.tts_models k = some e := by
  induction ops generalizing vm disk with
  | nil => exact h
  | cons op rest ih =>
    show alistGet (runOps (op.apply vm disk).1 (op.apply vm disk).2 rest).1.tts_models
      k = some e
    apply ih
    cases op with
    | getTTS w vid => exact get_tts_preserves_cache vm w vid k e h
    | addVoice vid dir name => exact h
    | removeVoice vid => exact h

/-- Witness for C5: a cached default engine survives a resolution, a
registry update and a registry removal. -/
theorem cache_entry_never_replaced_wit :
    alistGet (runOps ⟨[("default", ⟨0, defaultModelDir⟩)], 1, 1, ⟨[]⟩⟩ ⟨none, 0⟩
      [VMOp.getTTS wDefault none, VMOp.addVoice "v" "d" "n",
       VMOp.removeVoice "v"]).1.tts_models "default" =
      some ⟨0, defaultModelDir⟩ :=
  cache_entry_never_replaced
    [VMOp.getTTS wDefault none, VMOp.addVoice "v" "d" "n", VMOp.removeVoice "v"]
    ⟨[("default", ⟨0, defaultModelDir⟩)], 1, 1, ⟨[]⟩⟩ ⟨none, 0⟩
    "default" ⟨0, defaultModelDir⟩ rfl

/-- Well-formedness of caches the process can reach: every cached engine id
is below the fresh counter, and cached engine ids are pairwise distinct
(each construction consumed a fresh id). -/
def cacheWF (vm : VoiceManager) : Prop :=
  (∀ kv ∈ vm.tts_models, kv.2.engineId < vm.nextId) ∧
  vm.tts_models.Pairwise (fun a b => a.2.engineId ≠ b.2.engineId)

theorem cacheWF_distinct (vm : VoiceManager) (hwf : cacheWF vm) (k1 k2 : String)
    (e1 e2 : SparkEngine) (h1 : alistGet vm.tts_models k1 = some e1)
    (h2 : alistGet vm.tts_models k2 = some e2) (hk : k1 ≠ k2) : e1 ≠ e2 := by
  have m1 := alistGet_mem _ _ _ h1
  have m2 := alistGet_mem _ _ _ h2
  have hpair : ((k1, e1) : String × SparkEngine) ≠ (k2, e2) := by
    intro hp
    exact hk (congrArg Prod.fst hp)
  have hsym : Symmetric
      (fun (a b : String × SparkEngine) => a.2.engineId ≠ b.2.engineId) :=
    fun a b h => h.symm
  have hne := hwf.2.forall hsym m1 m2 hpair
  intro he
  exact hne (congrArg SparkEngine.engineId he)

theorem get_voice_after_remove (c : VoiceConfigState) (disk : RegistryDisk)
    (vid : String) (hnd : (c.voices.map Prod.fst).Nodup) :
    (c.remove_voice disk vid).2.1.get_voice vid = none := by
  by_cases h : (alistGet c.voices vid).isSome = true
  · simp only [VoiceConfigState.remove_voice, if_pos h]
    exact alistGet_erase_self c.voices vid hnd
  · simp only [VoiceConfigState.remove_voice, if_neg h]
    show alistGet c.voices vid = none
    cases hv : alistGet c.voices vid with
    | none => rfl
    | some v => rw [hv] at h; simp at h

/-- Counterexample for C9 as stated: the quantification over every cached,
then removed, voice_id includes the reserved key "default". A voice
registered under the id "default", loaded (cached under that key) and then
removed from the registry resolves to exactly the engine still cached
under that id, so resolve does return the still-cached engine for the
removed id and the entry stays reachable. -/
theorem removed_default_id_returns_cached :
    ((⟨[("default", ⟨"m", "Custom"⟩)]⟩ : VoiceConfigState).remove_voice
        ⟨none, 0⟩ "default").1 = true ∧
    ((⟨[("default", ⟨7, "m"⟩)], 8, 0,
        ((⟨[("default", ⟨"m", "Custom"⟩)]⟩ : VoiceConfigState).remove_voice
          ⟨none, 0⟩ "default").2.1⟩ : VoiceManager).get_tts
        ⟨⟨[], []⟩, [], []⟩ (some "default")).1 = .ok ⟨7, "m"⟩ ∧
    alistGet [("default", (⟨7, "m"⟩ : SparkEngine))] "default" =
      some ⟨7, "m"⟩ :=
  ⟨rfl, rfl, rfl⟩

/-- C9 amended: for every cached voice_id other than the reserved key
"default", removing the id from the registry makes get_tts route it to the
default engine (cached, or constructed when absent and constructible): the
result is the engine stored under "default", it differs from the engine
still cached under the removed id, and that engine remains in the cache. -/
theorem removed_voice_resolves_to_default (vm : VoiceManager)
    (disk : RegistryDisk) (w : World) (vid : String) (cachedE : SparkEngine)
    (hvid : vid ≠ "default")
    (hc : alistGet vm.tts_models vid = some cachedE)
    (hnd : (vm.voice_config.voices.map Prod.fst).Nodup)
    (hwf : cacheWF vm)
    (hdef : (∃ d, alistGet vm.tts_models "default" = some d) ∨
            (w.fs.pathExists defaultModelDir = true ∧
             alistGet w.badModels defaultModelDir = none)) :
    ∃ d : SparkEngine,
      (({ vm with voice_config := (vm.voice_config.remove_voice disk vid).2.1
        } : VoiceManager).get_tts w (some vid)).1 = .ok d ∧
      alistGet (({ vm with voice_config :=
          (vm.voice_config.remove_voice disk vid).2.1 } : VoiceManager).get_tts
          w (some vid)).2.tts_models "default" = some d ∧
      d ≠ cachedE ∧
      alistGet (({ vm with voice_config :=
          (vm.voice_config.remove_voice disk vid).2.1 } : VoiceManager).get_tts
          w (some vid)).2.tts_models vid = some cachedE := by
  have hr : (vm.voice_config.remove_voice disk vid).2.1.get_voice vid = none :=
    get_voice_after_remove _ _ _ hnd
  have hred : (({ vm with voice_config :=
      (vm.voice_config.remove_voice disk vid).2.1 } : VoiceManager).get_tts
      w (some vid)) =
      defaultBranch { vm with
        voice_config := (vm.voice_config.remove_voice disk vid).2.1,
        calls := vm.calls + 1 } w := by
    simp [VoiceManager.get_tts, hr]
  rw [hred]
  cases hcd : alistGet vm.tts_models "default" with
  | some d0 =>
    refine ⟨d0, ?_, ?_, ?_, ?_⟩
    · simp [defaultBranch, hcd]
    · simp [defaultBranch, hcd]
    · exact cacheWF_distinct vm hwf "default" vid d0 cachedE hcd hc
        (fun h => hvid h.symm)
    · simp [defaultBranch, hcd, hc]
  | none =>
    have hpb : w.fs.pathExists defaultModelDir = true ∧
        alistGet w.badModels defaultModelDir = none := by
      rcases hdef with ⟨d, hd⟩ | h
      · rw [hd] at hcd; cases hcd
      · exact h
    refine ⟨⟨vm.nextId, defaultModelDir⟩, ?_, ?_, ?_, ?_⟩
    · simp [defaultBranch, hcd, hpb.1, sparkTTSNew, hpb.2]
    · simp [defaultBranch, hcd, hpb.1, sparkTTSNew, hpb.2, alistGet_upsert_self]
    · intro he
      have hm := alistGet_mem _ _ _ hc
      have hlt := hwf.1 (vid, cachedE) hm
      rw [← he] at hlt
      exact absurd hlt (by simp)
    · simp only [defaultBranch, hcd, hpb.1, sparkTTSNew, hpb.2]
      simp
      rw [alistGet_upsert_ne _ _ _ _ (fun h => hvid h.symm)]
      exact hc

/-- A manager holding a loaded voice v1 and the loaded default engine, with
v1 registered, for the C9 witness. -/
def vmLoaded : VoiceManager :=
  ⟨[("v1", ⟨3, "models/v1"⟩), ("default", ⟨0, defaultModelDir⟩)], 4, 0,
   ⟨[("v1", ⟨"models/v1", "V"⟩)]⟩⟩

/-- Witness for the amended C9: voice v1 is cached and registered; it is
removed from the registry and then resolved. -/
theorem removed_voice_resolves_to_default_wit :
    ∃ d : SparkEngine,
      (({ vmLoaded with voice_config :=
          (vmLoaded.voice_config.remove_voice ⟨none, 0⟩ "v1").2.1
        } : VoiceManager).get_tts wDefault (some "v1")).1 = .ok d ∧
      alistGet (({ vmLoaded with voice_config :=
          (vmLoaded.voice_config.remove_voice ⟨none, 0⟩ "v1").2.1
        } : VoiceManager).get_tts wDefault (some "v1")).2.tts_models "default"
        = some d ∧
      d ≠ ⟨3, "models/v1"⟩ ∧
      alistGet (({ vmLoaded with voice_config :=
          (vmLoaded.voice_config.remove_voice ⟨none, 0⟩ "v1").2.1
        } : VoiceManager).get_tts wDefault (some "v1")).2.tts_models "v1"
        = some ⟨3, "models/v1"⟩ :=
  removed_voice_resolves_to_default vmLoaded ⟨none, 0⟩ wDefault "v1"
    ⟨3, "models/v1"⟩ (by decide) rfl (by decide)
    ⟨by decide, by simp [vmLoaded, List.pairwise_cons]⟩
    (Or.inl ⟨⟨0, defaultModelDir⟩, rfl⟩)

/-- C1: a synthesis request entering the command-line pipeline with missing
or empty text yields the structured validation failure and leaves the
process state and the world untouched: the bridge state (hence the ghost
get_tts call counter and the engine cache with its fresh-id counter) and
the filesystem are exactly as before, so the engine cache was never
invoked and no engine was constructed. -/
theorem empty_text_rejected_before_engine (st : BridgeState) (w : World)
    (textArg : Option String) (vid cv : Option String) (out : String)
    (h : textArg = none ∨ textArg = some "") :
    mainTTS st w textArg vid cv out =
      ({ success := false,
         message := "Unexpected error: --text argument is required for TTS action",
         file := none, trace := some tracebackText }, st, w) := by
  rcases h with rfl | rfl
  · rfl
  · simp [mainTTS]

/-- Witness for C1: a request with missing text on a live bridge state. -/
theorem empty_text_rejected_before_engine_wit :
    mainTTS ⟨true, vmEmpty⟩ wDefault none none none "output.wav" =
      ({ success := false,
         message := "Unexpected error: --text argument is required for TTS action",
         file := none, trace := some tracebackText },
       ⟨true, vmEmpty⟩, wDefault) :=
  empty_text_rejected_before_engine ⟨true, vmEmpty⟩ wDefault none none none
    "output.wav" (Or.inl rfl)

/-- C4: when the Spark-TTS integration is unavailable at process scope,
process_tts_request writes the fixed empty WAV placeholder to the output
path and returns success false with an explanatory message and the file
field populated with the output path (never null); the manager state is
untouched. -/
theorem unavailable_integration_placeholder (st : BridgeState) (w : World)
    (text : String) (vid cvp : Option String) (out : String)
    (h : st.sparkAvailable = false) :
    (process_tts_request st w text vid cvp out).1 =
      { success := false,
        message := "Spark-TTS is not properly installed: Spark-TTS modules not available. Created an empty audio file as fallback.",
        file := some out } ∧
    alistGet (process_tts_request st w text vid cvp out).2.2.fs.files out =
      some (.bytes emptyWavBytes) ∧
    (process_tts_request st w text vid cvp out).2.1 = st := by
  obtain ⟨sa, vm0⟩ := st
  cases h
  refine ⟨?_, ?_, ?_⟩ <;>
    simp [process_tts_request, ttsCore, FS.mkdirParents, FS.writeFile,
      alistGet_upsert_self]

/-- Witness for C4: a request processed while the integration is down. -/
theorem unavailable_integration_placeholder_wit :
    (process_tts_request ⟨false, vmEmpty⟩ wDefault "hello" none none
      "out/a.wav").1 =
      { success := false,
        message := "Spark-TTS is not properly installed: Spark-TTS modules not available. Created an empty audio file as fallback.",
        file := some "out/a.wav" } ∧
    alistGet (process_tts_request ⟨false, vmEmpty⟩ wDefault "hello" none none
      "out/a.wav").2.2.fs.files "out/a.wav" = some (.bytes emptyWavBytes) ∧
    (process_tts_request ⟨false, vmEmpty⟩ wDefault "hello" none none
      "out/a.wav").2.1 = ⟨false, vmEmpty⟩ :=
  unavailable_integration_placeholder ⟨false, vmEmpty⟩ wDefault "hello"
    none none "out/a.wav" rfl

/-- C6: with the integration available and engine resolution succeeding, a
request whose custom_voice_path does not exist fails with a message
referencing the missing path, a null file field, and the fixed log path in
log_file; the only file written is the diagnostic log with the request
details (in particular no placeholder audio is produced, unlike the
integration-unavailable fallback). -/
theorem missing_custom_voice_failure (st : BridgeState) (w : World)
    (text : String) (vid : Option String) (cvp : String) (out : String)
    (eng : SparkEngine) (vm2 : VoiceManager)
    (hav : st.sparkAvailable = true)
    (hres : st.vm.get_tts { w with fs := w.fs.mkdirParents (parentPath out) } vid
      = (.ok eng, vm2))
    (hmiss : (w.fs.mkdirParents (parentPath out)).pathExists cvp = false) :
    (process_tts_request st w text vid (some cvp) out).1 =
      { success := false,
        message := "File not found: " ++ ("Voice file not found: " ++ cvp),
        file := none,
        trace := some (truncatedTrace tracebackText),
        log_file := some errorLogPath } ∧
    (process_tts_request st w text vid (some cvp) out).2.2.fs.files =
      alistUpsert w.fs.files errorLogPath
        (.text (errorLogText text vid (some cvp) out
          ("Voice file not found: " ++ cvp))) ∧
    (process_tts_request st w text vid (some cvp) out).2.1 =
      { st with vm := vm2 } := by
  refine ⟨?_, ?_, ?_⟩
  · simp [process_tts_request, ttsCore, hav, hres, hmiss, FS.writeFile]
  · simp [process_tts_request, ttsCore, hav, hres, hmiss, FS.writeFile]
    simp [FS.mkdirParents]
  · simp [process_tts_request, ttsCore, hav, hres, hmiss, FS.writeFile]

/-- A manager holding only the loaded default engine, for witnesses. -/
def vmDef : VoiceManager := ⟨[("default", ⟨0, defaultModelDir⟩)], 1, 0, ⟨[]⟩⟩

/-- Witness for C6: integration up, default engine cached, custom voice
sample absent from the filesystem. -/
theorem missing_custom_voice_failure_wit :
    (process_tts_request ⟨true, vmDef⟩ wDefault "hi" none (some "missing.wav")
      "out/a.wav").1 =
      { success := false,
        message := "File not found: " ++ ("Voice file not found: " ++ "missing.wav"),
        file := none,
        trace := some (truncatedTrace tracebackText),
        log_file := some errorLogPath } ∧
    (process_tts_request ⟨true, vmDef⟩ wDefault "hi" none (some "missing.wav")
      "out/a.wav").2.2.fs.files =
      alistUpsert wDefault.fs.files errorLogPath
        (.text (errorLogText "hi" none (some "missing.wav") "out/a.wav"
          ("Voice file not found: " ++ "missing.wav"))) ∧
    (process_tts_request ⟨true, vmDef⟩ wDefault "hi" none (some "missing.wav")
      "out/a.wav").2.1 =
      { (⟨true, vmDef⟩ : BridgeState) with
        vm := ⟨[("default", ⟨0, defaultModelDir⟩)], 1, 1, ⟨[]⟩⟩ } :=
  missing_custom_voice_failure ⟨true, vmDef⟩ wDefault "hi" none "missing.wav"
    "out/a.wav" ⟨0, defaultModelDir⟩ ⟨[("default", ⟨0, defaultModelDir⟩)], 1, 1, ⟨[]⟩⟩
    rfl rfl (by decide)

theorem finishSynthesis_dirs (vm : VoiceManager) (w : World)
    (vid : Option String) (out : String) :
    (finishSynthesis vm w vid out).2.2.fs.dirs = w.fs.dirs := by
  unfold finishSynthesis
  dsimp only
  split <;> rfl

theorem ttsCore_dirs (st : BridgeState) (w : World) (vid cvp : Option String)
    (out : String) : (ttsCore st w vid cvp out).2.2.fs.dirs = w.fs.dirs := by
  unfold ttsCore
  split
  · rfl
  · split
    · rfl
    · split
      · split
        · rfl
        · exact finishSynthesis_dirs _ _ _ _
      · exact finishSynthesis_dirs _ _ _ _

theorem process_dirs (st : BridgeState) (w : World) (text : String)
    (vid cvp : Option String) (out : String) :
    (process_tts_request st w text vid cvp out).2.2.fs.dirs =
      parentPath out :: ancestorDirs (parentPath out) ++ w.fs.dirs := by
  have hd := ttsCore_dirs st { w with fs := w.fs.mkdirParents (parentPath out) }
    vid cvp out
  unfold process_tts_request
  split
  · rename_i r vm2 w2 heq
    rw [heq] at hd
    simp only [FS.mkdirParents] at hd
    exact hd
  · rename_i e vm2 w2 heq
    rw [heq] at hd
    simp only [FS.mkdirParents] at hd
    split <;> (simp only [FS.writeFile]; exact hd)

/-- C10: every call to process_tts_request, whatever its outcome (success,
integration-unavailable fallback, missing model, missing custom voice),
leaves the parent directory of the output path existing on the filesystem:
the directory is created before validation, resolution or any
custom-voice-path check runs. -/
theorem output_parent_dir_created (st : BridgeState) (w : World) (text : String)
    (vid cvp : Option String) (out : String) :
    parentPath out ∈ (process_tts_request st w text vid cvp out).2.2.fs.dirs := by
  rw [process_dirs]
  exact List.mem_cons_self _ _
